import Mathlib

/-!
Verification of the Rust API gateway (`rustway`): a shallow embedding of the
error taxonomy (`src/errors.rs`), route resolution and the proxy handler
(`src/proxy.rs`, `src/middleware/mod.rs`), the WebSocket upgrade handler
(`src/middleware/websocket.rs`), the custom metrics module
(`src/utils/metrics.rs`, `src/utils/metric_handler.rs`), the benchmark token
bucket (`benches/gateway_bench.rs`) and the startup defaults (`src/main.rs`,
`src/utils/config_path.rs`), together with theorems about the embedded code.

Machine integers (`u64`) are modelled as `Nat` with explicit `% 2 ^ 64`
where the Rust operation wraps, or as `Int` where the point is to show the
value never becomes negative.  Fallible paths are modelled with `Option` /
`Except`.  Panics are modelled as `Option.none` results.
-/

/-! ### Error taxonomy (`src/errors.rs`)

`AppError` mirrors the Rust enum.  `ProxyError` carries a `reqwest::Error`
that is never inspected by the code under study, so the payload is dropped;
the `String` payloads that the code does mention are kept. -/

inductive AppError where
  | rateLimited : AppError
  | serviceUnavailable : AppError
  | authFailed : String → AppError
  | missingAuthToken : AppError
  | invalidAuthHeader : AppError
  | insufficientPermissions : AppError
  | tokenExpired : AppError
  | routeNotFound : AppError
  | proxyError : AppError
  | invalidDestination : String → AppError
  | internalServerError : AppError
  | hotReloadError : String → AppError
deriving DecidableEq

/-- The HTTP status code chosen by `AppError::into_response`
(`src/errors.rs`, the `(status, error_message)` match). -/
def AppError.statusCode : AppError → Nat
  | .rateLimited => 429
  | .authFailed _ => 401
  | .missingAuthToken => 401
  | .invalidAuthHeader => 401
  | .insufficientPermissions => 403
  | .tokenExpired => 401
  | .routeNotFound => 404
  | .proxyError => 502
  | .invalidDestination _ => 500
  | .internalServerError => 500
  | .serviceUnavailable => 503
  | .hotReloadError _ => 500

/-- Tracing log levels, restricted to the two the error path uses. -/
inductive LogLevel where
  | warn : LogLevel
  | error : LogLevel
deriving DecidableEq

/-- `AppError::get_log_level` (`src/errors.rs`): `WARN` exactly for
`RateLimited`, `MissingAuthToken`, `InvalidAuthHeader`,
`InsufficientPermissions`, `TokenExpired`, `RouteNotFound`; `ERROR` for
everything else (including `AuthFailed`). -/
def AppError.get_log_level : AppError → LogLevel
  | .rateLimited => .warn
  | .missingAuthToken => .warn
  | .invalidAuthHeader => .warn
  | .insufficientPermissions => .warn
  | .tokenExpired => .warn
  | .routeNotFound => .warn
  | _ => .error

/-- Which logging method `AppError::into_response` invokes before building
the response: `self.log_warning(..)` or `self.log_error(..)`
(`src/errors.rs`, the match arms of `into_response`). -/
inductive LogCall where
  | logWarning : LogCall
  | logError : LogCall
deriving DecidableEq

def AppError.intoResponseLogCall : AppError → LogCall
  | .rateLimited => .logWarning
  | .authFailed _ => .logError
  | .missingAuthToken => .logWarning
  | .invalidAuthHeader => .logWarning
  | .insufficientPermissions => .logWarning
  | .tokenExpired => .logWarning
  | .routeNotFound => .logWarning
  | .proxyError => .logError
  | .invalidDestination _ => .logError
  | .internalServerError => .logError
  | .serviceUnavailable => .logError
  | .hotReloadError _ => .logError

/-- Level actually emitted by `AppError::log_warning` (`src/errors.rs`):
the six listed variants emit a warning; every other variant falls through
to `self.log_error`, which emits at error level. -/
def AppError.logWarningEmits : AppError → LogLevel
  | .rateLimited => .warn
  | .missingAuthToken => .warn
  | .invalidAuthHeader => .warn
  | .insufficientPermissions => .warn
  | .tokenExpired => .warn
  | .routeNotFound => .warn
  | _ => .error

/-- Level emitted on the response-generation path: `into_response` calls
`log_warning` or `log_error`; `log_error` always emits at error level. -/
def AppError.emittedLevel (e : AppError) : LogLevel :=
  match e.intoResponseLogCall with
  | .logWarning => e.logWarningEmits
  | .logError => .error

/-! ### Startup defaults (`src/main.rs`, `src/utils/config_path.rs`) -/

/-- The configuration file path hard-coded by `main`
(`src/main.rs`: `PathBuf::from("gateway.yaml")`). -/
def mainDefaultConfigFile : String := "gateway.yaml"

/-- The default of the `--config` CLI flag
(`src/utils/config_path.rs`: `default_value = "gateway_config.yaml"`). -/
def cliDefaultConfigFile : String := "gateway_config.yaml"

/-! ### String helpers

Embeddings of the Rust `str` operations the gateway uses, over `List Char`
(the `String.data` view).  `beginsWith` is Rust `str::starts_with`, the
route-matching "configured path is a prefix of the request path" test. -/

def beginsWith : List Char → List Char → Bool
  | [], _ => true
  | _ :: _, [] => false
  | a :: ps, b :: ss => a == b && beginsWith ps ss

/-- Rust `str::strip_prefix(pre)` on `s`: `Some` of the remainder when
`pre` leads `s`, else `None`. -/
def stripLead (pre s : String) : Option String :=
  if beginsWith pre.data s.data then some ⟨s.data.drop pre.data.length⟩ else none

/-- Rust `str::contains(pat)` for a substring pattern (an empty pattern is
contained everywhere). -/
def listContains (pat : List Char) : List Char → Bool
  | [] => pat.isEmpty
  | c :: t => beginsWith pat (c :: t) || listContains pat t

/-- Rust `str::replace(pat, rep)`: scans left to right, rewriting each
non-overlapping occurrence of `pat` (guarded to non-empty patterns, the
only patterns the gateway uses). -/
def replaceAll (pat rep : List Char) : List Char → List Char
  | [] => []
  | c :: t =>
      if beginsWith pat (c :: t) && !pat.isEmpty then
        rep ++ replaceAll pat rep (t.drop (pat.length - 1))
      else
        c :: replaceAll pat rep t
termination_by s => s.length
decreasing_by
  · simp [Nat.lt_succ_iff]
  · simp [Nat.lt_succ_iff]

/-! ### Route configuration and route resolution

`RouteConfig` keeps the fields the provided sources read: the matched
`path`, the `destinations` list (used by the WebSocket handler), and the
legacy singular `destination` (used by `proxy_handler` and as the WebSocket
fallback). -/

structure RouteConfig where
  path : String
  destinations : List String
  destination : String
deriving DecidableEq

structure GatewayConfig where
  routes : List RouteConfig
deriving DecidableEq

/-- Does `r` match request path `p`?  The configured `r.path` must be a
prefix of `p`. -/
def pathMatches (r : RouteConfig) (p : String) : Bool :=
  beginsWith r.path.data p.data

/-- Keep the candidate with the longer configured path (first wins ties). -/
def pickLonger (best : Option RouteConfig) (r : RouteConfig) : Option RouteConfig :=
  match best with
  | none => some r
  | some b => if b.path.length < r.path.length then some r else some b

def findRouteAux (p : String) : List RouteConfig → Option RouteConfig → Option RouteConfig
  | [], best => best
  | r :: rest, best =>
      findRouteAux p rest (if pathMatches r p then pickLonger best r else best)

/-- Modelled from the spec: `GatewayConfig::find_route_for_path` is defined
in `src/config.rs`, which is not among the provided sources (only its
callers in `src/proxy.rs` and `src/middleware/mod.rs` are).  The spec fixes
its contract: "a route matches if its configured path is a prefix of the
request path; when multiple routes match, the longest matching prefix wins
(most specific route)", and no match yields `None`. -/
def find_route_for_path (c : GatewayConfig) (p : String) : Option RouteConfig :=
  findRouteAux p c.routes none

/-! ### The proxy handler (`src/proxy.rs`)

Headers are modelled as association lists; `headerInsert` is axum's
`HeaderMap::insert` (replace any previous value for the name).  The actual
network transfer is abstracted as a total `backend` function from the
forwarded URL and headers to a backend response; the fallible transport
steps (body read, request build, execute) are orthogonal to the claims
settled here, which concern the forwarded URL and header injection. -/

/-- Modelled from the spec: `crate::app::REQUEST_ID_HEADER` (in
`src/app.rs`, not among the provided sources) names the per-request
correlation identifier header; its exact spelling is immaterial to the
claims, only that the same name is used for the outbound request and the
final response. -/
def REQUEST_ID_HEADER : String := "x-request-id"

def headerInsert (nm v : String) (hs : List (String × String)) :
    List (String × String) :=
  (nm, v) :: hs.filter (fun kv => kv.1 ≠ nm)

def headerGet (nm : String) (hs : List (String × String)) : Option String :=
  (hs.find? (fun kv => kv.1 == nm)).map (fun kv => kv.2)

structure BackendResponse where
  status : Nat
  headers : List (String × String)
  body : String

/-- Observable outcome of a successful `proxy_handler` run: the URL the
request was forwarded to, the headers sent with it, and the final
response returned to the client. -/
structure ProxyOut where
  destination_url : String
  outboundHeaders : List (String × String)
  respStatus : Nat
  respHeaders : List (String × String)
  respBody : String

/-- `proxy_handler` (`src/proxy.rs`): prepends `/` to the axum-captured
path, resolves the route (`RouteNotFound` when none matches), strips the
matched route path from the request path (`unwrap_or("")`), appends the
remainder to the route's `destination`, injects the request id header into
the outbound headers, calls the backend, and injects the request id header
into the response headers. -/
def proxy_handler (c : GatewayConfig) (request_id : String) (rawPath : String)
    (headers : List (String × String))
    (backend : String → List (String × String) → BackendResponse) :
    Except AppError ProxyOut :=
  let request_path := "/" ++ rawPath
  match find_route_for_path c request_path with
  | none => .error .routeNotFound
  | some route =>
      let destination_path := (stripLead route.path request_path).getD ""
      let destination_url := route.destination ++ destination_path
      let outHeaders := headerInsert REQUEST_ID_HEADER request_id headers
      let resp := backend destination_url outHeaders
      let finalHeaders := headerInsert REQUEST_ID_HEADER request_id resp.headers
      .ok ⟨destination_url, outHeaders, resp.status, finalHeaders, resp.body⟩

/-! ### The WebSocket upgrade handler (`src/middleware/websocket.rs`) -/

/-- The `http`→`ws` / `https`→`wss` substitution of `ws_handler`:
`destination.replace("http://", "ws://").replace("https://", "wss://")`. -/
def schemeSub (s : String) : String :=
  ⟨replaceAll "https://".data "wss://".data
      (replaceAll "http://".data "ws://".data s.data)⟩

/-- Destination selection of `ws_handler`: the first entry of
`destinations` when non-empty, else the legacy `destination` field when
non-empty, else `RouteNotFound`; the chosen base URL then undergoes the
scheme substitution. -/
def wsDestinationUrl (route : RouteConfig) : Except AppError String :=
  match route.destinations with
  | d :: _ => .ok (schemeSub d)
  | [] =>
      if route.destination ≠ "" then .ok (schemeSub route.destination)
      else .error .routeNotFound

/-- `ws_handler` (`src/middleware/websocket.rs`), up to the backend URL it
hands to `handle_ws_proxy`: resolve the route for `"/" ++ path`, then
select and rewrite the destination. -/
def ws_handler (c : GatewayConfig) (rawPath : String) : Except AppError String :=
  match find_route_for_path c ("/" ++ rawPath) with
  | none => .error .routeNotFound
  | some route => wsDestinationUrl route

/-! ### Custom metrics (`src/utils/metrics.rs`, `src/utils/metric_handler.rs`)

The eight `AtomicU64` counters are a record of `Nat`s; `fetch_add` /
`fetch_sub` on `AtomicU64` wrap modulo `2 ^ 64`, made explicit by
`wrapInc` / `wrapDec`. -/

def u64Mod : Nat := 2 ^ 64

def wrapInc (n : Nat) : Nat := (n + 1) % u64Mod

def wrapDec (n : Nat) : Nat := (n + (u64Mod - 1)) % u64Mod

structure CustomMetrics where
  requests_total : Nat
  requests_success : Nat
  requests_error : Nat
  cache_hits : Nat
  cache_misses : Nat
  rate_limited : Nat
  circuit_breaker_open : Nat
  websocket_connections : Nat
deriving DecidableEq

/-- `CustomMetrics::new`: every counter starts at zero. -/
def CustomMetrics.new : CustomMetrics :=
  ⟨0, 0, 0, 0, 0, 0, 0, 0⟩

/-- The complete public mutating interface of `CustomMetrics`: one
increment method per counter plus the decrement of the WebSocket gauge.
There is no reset or store operation. -/
inductive MetricsOp where
  | incRequestsTotal : MetricsOp
  | incRequestsSuccess : MetricsOp
  | incRequestsError : MetricsOp
  | incCacheHits : MetricsOp
  | incCacheMisses : MetricsOp
  | incRateLimited : MetricsOp
  | incCircuitBreakerOpen : MetricsOp
  | incWebsocketConnections : MetricsOp
  | decWebsocketConnections : MetricsOp
deriving DecidableEq

def applyOp : MetricsOp → CustomMetrics → CustomMetrics
  | .incRequestsTotal, m => { m with requests_total := wrapInc m.requests_total }
  | .incRequestsSuccess, m => { m with requests_success := wrapInc m.requests_success }
  | .incRequestsError, m => { m with requests_error := wrapInc m.requests_error }
  | .incCacheHits, m => { m with cache_hits := wrapInc m.cache_hits }
  | .incCacheMisses, m => { m with cache_misses := wrapInc m.cache_misses }
  | .incRateLimited, m => { m with rate_limited := wrapInc m.rate_limited }
  | .incCircuitBreakerOpen, m => { m with circuit_breaker_open := wrapInc m.circuit_breaker_open }
  | .incWebsocketConnections, m => { m with websocket_connections := wrapInc m.websocket_connections }
  | .decWebsocketConnections, m => { m with websocket_connections := wrapDec m.websocket_connections }

/-- The lines of `CustomMetrics::render` (`src/utils/metrics.rs`): the
format string is a `\n`-separated sequence of exactly these lines, in this
order, with each counter's current value interpolated. -/
def metricLines (m : CustomMetrics) : List String :=
  [ "# HELP gateway_requests_total Total requests",
    "# TYPE gateway_requests_total counter",
    "gateway_requests_total " ++ toString m.requests_total,
    "# HELP gateway_requests_success Successful requests",
    "# TYPE gateway_requests_success counter",
    "gateway_requests_success " ++ toString m.requests_success,
    "# HELP gateway_requests_error Error requests",
    "# TYPE gateway_requests_error counter",
    "gateway_requests_error " ++ toString m.requests_error,
    "# HELP gateway_cache_hits Cache hits",
    "# TYPE gateway_cache_hits counter",
    "gateway_cache_hits " ++ toString m.cache_hits,
    "# HELP gateway_cache_misses Cache misses",
    "# TYPE gateway_cache_misses counter",
    "gateway_cache_misses " ++ toString m.cache_misses,
    "# HELP gateway_rate_limited Rate limited requests",
    "# TYPE gateway_rate_limited counter",
    "gateway_rate_limited " ++ toString m.rate_limited,
    "# HELP gateway_circuit_breaker_open Circuit breaker open events",
    "# TYPE gateway_circuit_breaker_open counter",
    "gateway_circuit_breaker_open " ++ toString m.circuit_breaker_open,
    "# HELP gateway_websocket_connections Active WebSocket connections",
    "# TYPE gateway_websocket_connections gauge",
    "gateway_websocket_connections " ++ toString m.websocket_connections ]

/-- `CustomMetrics::render`: the lines joined by `\n`, with a trailing
newline (the format string ends in `\n`). -/
def CustomMetrics.render (m : CustomMetrics) : String :=
  String.intercalate "\n" (metricLines m) ++ "\n"

/-- A `PrometheusHandle`, abstracted to the text it renders. -/
structure PromHandle where
  rendered : String

/-- The slice of `AppState` (`src/state.rs`) the metrics endpoints read. -/
structure MetricsAppState where
  prometheus_handle : Option PromHandle

/-- `metrics_handler` in `src/utils/metric_handler.rs`:
`state.prometheus_handle.as_ref().unwrap().render()`.  The `unwrap` panics
when the handle is `None`; the panic is modelled as `none`. -/
def metricHandlerMetricsHandler (s : MetricsAppState) : Option String :=
  match s.prometheus_handle with
  | some h => some h.rendered
  | none => none

/-- `metrics_handler` in `src/utils/metrics.rs`: appends the Prometheus
text (plus `'\n'`) when a handle is present, then always appends the
custom-metrics text; total in every state. -/
def metricsMetricsHandler (s : MetricsAppState) (m : CustomMetrics) : String :=
  (match s.prometheus_handle with
   | some h => h.rendered ++ "\n"
   | none => "") ++ CustomMetrics.render m

/-! ### The benchmark token bucket (`benches/gateway_bench.rs`)

`SimpleBucket` from `bench_token_bucket`.  The token count lives in an
`AtomicU64`; it is modelled as an `Int` so that "never negative" is a
provable statement rather than a typing artefact.  `try_acquire` is the
sequentialisation of the load / compare-exchange loop: it returns `false`
when the count is zero and otherwise consumes exactly one token. -/

structure SimpleBucket where
  tokens : Int
  capacity : Nat
  refill_rate : Nat
deriving DecidableEq

/-- `SimpleBucket::new(capacity, refill_rate)`: starts full. -/
def SimpleBucket.new (capacity refill_rate : Nat) : SimpleBucket :=
  ⟨(capacity : Int), capacity, refill_rate⟩

/-- `SimpleBucket::try_acquire`, paired with the successor state. -/
def SimpleBucket.try_acquire (b : SimpleBucket) : Bool × SimpleBucket :=
  if b.tokens = 0 then (false, b)
  else (true, { b with tokens := b.tokens - 1 })

/-- The bucket state after `n` consecutive `try_acquire` calls. -/
def SimpleBucket.runAcquires : Nat → SimpleBucket → SimpleBucket
  | 0, b => b
  | n + 1, b => SimpleBucket.runAcquires n b.try_acquire.2

/-- The outcomes of `n` consecutive `try_acquire` calls. -/
def SimpleBucket.acquireOutcomes : Nat → SimpleBucket → List Bool
  | 0, _ => []
  | n + 1, b => b.try_acquire.1 :: SimpleBucket.acquireOutcomes n b.try_acquire.2

/-! ### Concrete fixtures for the specificity examples -/

def apiRoute : RouteConfig := ⟨"/api", [], "http://backend-a:8080"⟩

def apiV1Route : RouteConfig := ⟨"/api/v1", [], "http://backend-b:8080"⟩

def apiCfg : GatewayConfig := ⟨[apiRoute, apiV1Route]⟩

def wsRoute : RouteConfig := ⟨"/ws", ["http://backend:9001"], ""⟩

def wsCfg : GatewayConfig := ⟨[wsRoute]⟩

/-! ## Theorems -/

/-! ### String-matching lemmas -/

theorem beginsWith_append (p r : List Char) : beginsWith p (p ++ r) = true := by
  induction p with
  | nil => rfl
  | cons a ps ih => simp [beginsWith, ih]

theorem beginsWith_iff (p s : List Char) :
    beginsWith p s = true ↔ ∃ t, s = p ++ t := by
  induction p generalizing s with
  | nil => simp [beginsWith]
  | cons a ps ih =>
    cases s with
    | nil => simp [beginsWith]
    | cons b ss =>
      simp only [beginsWith, Bool.and_eq_true, beq_iff_eq, ih]
      constructor
      · rintro ⟨rfl, t, rfl⟩; exact ⟨t, rfl⟩
      · rintro ⟨t, h⟩
        cases h
        exact ⟨rfl, t, rfl⟩

/-! ### Route-resolution lemmas -/

theorem pickLonger_ne_none (best : Option RouteConfig) (r : RouteConfig) :
    pickLonger best r ≠ none := by
  cases best with
  | none => simp [pickLonger]
  | some b =>
    simp only [pickLonger]
    split <;> simp

theorem findRouteAux_sound (p : String) (routes : List RouteConfig) :
    ∀ (best : Option RouteConfig) (r : RouteConfig),
      findRouteAux p routes best = some r →
      best = some r ∨ (r ∈ routes ∧ pathMatches r p = true) := by
  induction routes with
  | nil => intro best r h; exact Or.inl h
  | cons r₀ rest ih =>
    intro best r h
    simp only [findRouteAux] at h
    rcases ih _ r h with h' | ⟨hmem, hm⟩
    · by_cases hc : pathMatches r₀ p = true
      · rw [if_pos hc] at h'
        cases best with
        | none =>
          simp only [pickLonger, Option.some.injEq] at h'
          subst h'
          exact Or.inr ⟨List.mem_cons_self r₀ rest, hc⟩
        | some b =>
          simp only [pickLonger] at h'
          split at h'
          · rw [Option.some.injEq] at h'
            subst h'
            exact Or.inr ⟨List.mem_cons_self r₀ rest, hc⟩
          · exact Or.inl h'
      · rw [if_neg hc] at h'
        exact Or.inl h'
    · exact Or.inr ⟨List.mem_cons_of_mem r₀ hmem, hm⟩

theorem findRouteAux_ge_best (p : String) (routes : List RouteConfig) :
    ∀ (b r : RouteConfig), findRouteAux p routes (some b) = some r →
      b.path.length ≤ r.path.length := by
  induction routes with
  | nil =>
    intro b r h
    simp only [findRouteAux, Option.some.injEq] at h
    subst h
    exact le_refl _
  | cons r₀ rest ih =>
    intro b r h
    simp only [findRouteAux] at h
    by_cases hc : pathMatches r₀ p = true
    · rw [if_pos hc] at h
      simp only [pickLonger] at h
      by_cases hlt : b.path.length < r₀.path.length
      · rw [if_pos hlt] at h
        exact le_trans (le_of_lt hlt) (ih r₀ r h)
      · rw [if_neg hlt] at h
        exact ih b r h
    · rw [if_neg hc] at h
      exact ih b r h

theorem findRouteAux_maximal (p : String) (routes : List RouteConfig) :
    ∀ (best : Option RouteConfig) (r' : RouteConfig), r' ∈ routes →
      pathMatches r' p = true →
      ∀ r, findRouteAux p routes best = some r →
        r'.path.length ≤ r.path.length := by
  induction routes with
  | nil => intro best r' hmem; exact absurd hmem (List.not_mem_nil r')
  | cons r₀ rest ih =>
    intro best r' hmem hm r h
    simp only [findRouteAux] at h
    rcases List.mem_cons.mp hmem with rfl | hmem'
    · rw [if_pos hm] at h
      cases best with
      | none =>
        simp only [pickLonger] at h
        exact findRouteAux_ge_best p rest r' r h
      | some b =>
        simp only [pickLonger] at h
        by_cases hlt : b.path.length < r'.path.length
        · rw [if_pos hlt] at h
          exact findRouteAux_ge_best p rest r' r h
        · rw [if_neg hlt] at h
          exact le_trans (le_of_not_lt hlt) (findRouteAux_ge_best p rest b r h)
    · exact ih _ r' hmem' hm r h

theorem findRouteAux_eq_none (p : String) (routes : List RouteConfig) :
    ∀ best, findRouteAux p routes best = none ↔
      (best = none ∧ ∀ r ∈ routes, pathMatches r p = false) := by
  induction routes with
  | nil => intro best; simp [findRouteAux]
  | cons r₀ rest ih =>
    intro best
    simp only [findRouteAux, ih, List.forall_mem_cons]
    by_cases hc : pathMatches r₀ p = true
    · simp [hc, pickLonger_ne_none]
    · simp only [Bool.not_eq_true] at hc
      simp [hc]

/-! ### C1–C10 claim theorems -/

/-- C1: route resolution returns a route whose configured path is a prefix
of the request path, choosing the longest matching prefix when several
match; with no matching prefix it returns no route and `proxy_handler`
yields `RouteNotFound`; with routes `/api` and `/api/v1` configured,
`/api/v1/users` resolves to the `/api/v1` route and `/api/other` resolves
to the `/api` route. -/
theorem route_resolution_longest_match (c : GatewayConfig) (p : String) :
    (∀ r, find_route_for_path c p = some r →
        r ∈ c.routes ∧ pathMatches r p = true ∧
          ∀ r' ∈ c.routes, pathMatches r' p = true →
            r'.path.length ≤ r.path.length)
    ∧ (find_route_for_path c p = none ↔ ∀ r ∈ c.routes, pathMatches r p = false)
    ∧ (∀ request_id rawPath headers backend,
        find_route_for_path c ("/" ++ rawPath) = none →
        proxy_handler c request_id rawPath headers backend =
          Except.error AppError.routeNotFound)
    ∧ find_route_for_path apiCfg "/api/v1/users" = some apiV1Route
    ∧ find_route_for_path apiCfg "/api/other" = some apiRoute := by
  refine ⟨?_, ?_, ?_, by decide, by decide⟩
  · intro r h
    rcases findRouteAux_sound p c.routes none r h with h' | ⟨hmem, hm⟩
    · simp at h'
    · exact ⟨hmem, hm, fun r' hmem' hm' =>
        findRouteAux_maximal p c.routes none r' hmem' hm' r h⟩
  · simpa using findRouteAux_eq_none p c.routes none
  · intro request_id rawPath headers backend h
    simp [proxy_handler, h]

theorem route_resolution_longest_match_witness :
    pathMatches apiRoute "/api/v1/users" = true ∧
      apiRoute.path.length ≤ apiV1Route.path.length :=
  ⟨by decide,
    ((route_resolution_longest_match apiCfg "/api/v1/users").1 apiV1Route
        (by decide)).2.2 apiRoute (by decide) (by decide)⟩

/-- C3: `AppError::into_response` maps each error kind to its specified
HTTP status: `RouteNotFound` to 404, `RateLimited` to 429,
`ServiceUnavailable` to 503, `ProxyError` to 502, `InvalidDestination` and
`InternalServerError` to 500, `InsufficientPermissions` to 403, and
`AuthFailed`, `MissingAuthToken`, `InvalidAuthHeader`, `TokenExpired` to
401, for every value of the error type. -/
theorem app_error_status_codes :
    AppError.statusCode .routeNotFound = 404
    ∧ AppError.statusCode .rateLimited = 429
    ∧ AppError.statusCode .serviceUnavailable = 503
    ∧ AppError.statusCode .proxyError = 502
    ∧ (∀ u, AppError.statusCode (.invalidDestination u) = 500)
    ∧ AppError.statusCode .internalServerError = 500
    ∧ AppError.statusCode .insufficientPermissions = 403
    ∧ (∀ s, AppError.statusCode (.authFailed s) = 401)
    ∧ AppError.statusCode .missingAuthToken = 401
    ∧ AppError.statusCode .invalidAuthHeader = 401
    ∧ AppError.statusCode .tokenExpired = 401 :=
  ⟨rfl, rfl, rfl, rfl, fun _ => rfl, rfl, rfl, fun _ => rfl, rfl, rfl, rfl⟩

/-- C4 counterexample: `AuthFailed` is not logged at warning level — its
`get_log_level` is `ERROR`, and the response-generation path invokes
`log_error`, emitting at error level. -/
theorem auth_failed_logged_at_error :
    AppError.get_log_level (.authFailed "bad credentials") = .error
    ∧ AppError.get_log_level (.authFailed "bad credentials") ≠ .warn
    ∧ AppError.intoResponseLogCall (.authFailed "bad credentials") = .logError
    ∧ AppError.emittedLevel (.authFailed "bad credentials") = .error :=
  ⟨rfl, by decide, rfl, rfl⟩

/-- C4 (amended): of the auth-class errors, `MissingAuthToken`,
`InvalidAuthHeader`, `InsufficientPermissions` and `TokenExpired` are
logged at warning level (`get_log_level` is `WARN` and the
response-generation path logs via `log_warning`, which emits a warning for
them), whereas `AuthFailed` is logged at error level (`get_log_level` is
`ERROR` and the response-generation path invokes `log_error`). -/
theorem auth_error_log_levels (e : AppError)
    (h : e = .missingAuthToken ∨ e = .invalidAuthHeader ∨
      e = .insufficientPermissions ∨ e = .tokenExpired) :
    (e.get_log_level = .warn ∧ e.intoResponseLogCall = .logWarning ∧
      e.emittedLevel = .warn)
    ∧ ∀ s, (AppError.authFailed s).get_log_level = .error ∧
        (AppError.authFailed s).intoResponseLogCall = .logError ∧
        (AppError.authFailed s).emittedLevel = .error := by
  refine ⟨?_, fun _ => ⟨rfl, rfl, rfl⟩⟩
  rcases h with rfl | rfl | rfl | rfl <;> exact ⟨rfl, rfl, rfl⟩

theorem auth_error_log_levels_witness :
    (AppError.missingAuthToken = .missingAuthToken ∨
      AppError.missingAuthToken = .invalidAuthHeader ∨
      AppError.missingAuthToken = .insufficientPermissions ∨
      AppError.missingAuthToken = .tokenExpired)
    ∧ AppError.get_log_level .missingAuthToken = .warn :=
  ⟨Or.inl rfl, (auth_error_log_levels .missingAuthToken (Or.inl rfl)).1.1⟩

theorem headerGet_insert (nm v : String) (hs : List (String × String)) :
    headerGet nm (headerInsert nm v hs) = some v := by
  simp [headerGet, headerInsert, List.find?]

/-- C2: when the path matches a route, `proxy_handler` forwards to the
route's `destination` concatenated with the request path minus the matched
route path, and the correlation identifier header carries the request id in
both the outbound headers and the final response headers. -/
theorem proxy_forwarding_and_request_id (c : GatewayConfig)
    (request_id rawPath : String) (headers : List (String × String))
    (backend : String → List (String × String) → BackendResponse)
    (route : RouteConfig)
    (h : find_route_for_path c ("/" ++ rawPath) = some route) :
    ∃ out, proxy_handler c request_id rawPath headers backend = Except.ok out
      ∧ out.destination_url =
          route.destination ++ String.mk (("/" ++ rawPath).data.drop route.path.length)
      ∧ headerGet REQUEST_ID_HEADER out.outboundHeaders = some request_id
      ∧ headerGet REQUEST_ID_HEADER out.respHeaders = some request_id := by
  have hm : beginsWith route.path.data ("/" ++ rawPath).data = true := by
    rcases findRouteAux_sound ("/" ++ rawPath) c.routes none route h with h' | ⟨_, hm⟩
    · simp at h'
    · exact hm
  simp only [proxy_handler, h, stripLead, hm, if_true, Option.getD_some]
  exact ⟨_, rfl, rfl, headerGet_insert _ _ _, headerGet_insert _ _ _⟩

theorem proxy_forwarding_and_request_id_witness :
    find_route_for_path apiCfg ("/" ++ "api/v1/users") = some apiV1Route ∧
      ∃ out, proxy_handler apiCfg "req-1" "api/v1/users" []
            (fun _ _ => ⟨200, [], ""⟩) = Except.ok out
        ∧ out.destination_url =
            apiV1Route.destination ++
              String.mk (("/" ++ "api/v1/users").data.drop apiV1Route.path.length)
        ∧ headerGet REQUEST_ID_HEADER out.outboundHeaders = some "req-1"
        ∧ headerGet REQUEST_ID_HEADER out.respHeaders = some "req-1" :=
  ⟨by decide,
    proxy_forwarding_and_request_id apiCfg "req-1" "api/v1/users" []
      (fun _ _ => ⟨200, [], ""⟩) apiV1Route (by decide)⟩

/-- C5: the token count of the benchmark bucket stays within
`[0, capacity]` under every sequence of `try_acquire` calls;
`try_acquire` succeeds exactly when at least one token is available and on
success consumes exactly one token; with capacity 5 the first five
acquisitions succeed and the sixth fails. -/
theorem token_bucket_bounds (capacity refill_rate n : Nat) :
    (0 ≤ (SimpleBucket.runAcquires n (SimpleBucket.new capacity refill_rate)).tokens
      ∧ (SimpleBucket.runAcquires n (SimpleBucket.new capacity refill_rate)).tokens
          ≤ (capacity : Int))
    ∧ (∀ b : SimpleBucket,
        (b.try_acquire.1 = true ↔ b.tokens ≠ 0)
        ∧ (0 ≤ b.tokens → (b.try_acquire.1 = true ↔ 1 ≤ b.tokens))
        ∧ (b.try_acquire.1 = true → b.try_acquire.2.tokens = b.tokens - 1)
        ∧ (b.try_acquire.1 = false → b.try_acquire.2 = b))
    ∧ SimpleBucket.acquireOutcomes 6 (SimpleBucket.new 5 1) =
        [true, true, true, true, true, false] := by
  refine ⟨?_, ?_, by decide⟩
  · have key : ∀ (k : Nat) (b : SimpleBucket), 0 ≤ b.tokens →
        0 ≤ (SimpleBucket.runAcquires k b).tokens
        ∧ (SimpleBucket.runAcquires k b).tokens ≤ b.tokens := by
      intro k
      induction k with
      | zero => intro b hb; exact ⟨hb, le_refl _⟩
      | succ k ih =>
        intro b hb
        have hstep : 0 ≤ b.try_acquire.2.tokens ∧ b.try_acquire.2.tokens ≤ b.tokens := by
          unfold SimpleBucket.try_acquire
          split
          · exact ⟨hb, le_refl _⟩
          · constructor
            · simp only
              omega
            · simp only
              omega
        have := ih b.try_acquire.2 hstep.1
        exact ⟨this.1, le_trans this.2 hstep.2⟩
    have h0 : (0 : Int) ≤ (SimpleBucket.new capacity refill_rate).tokens := by
      simp [SimpleBucket.new]
    have := key n (SimpleBucket.new capacity refill_rate) h0
    exact ⟨this.1, this.2⟩
  · intro b
    refine ⟨?_, ?_, ?_, ?_⟩
    · unfold SimpleBucket.try_acquire
      split <;> simp_all
    · intro hb
      unfold SimpleBucket.try_acquire
      split
      · simp_all
      · simp_all
        omega
    · intro ht
      unfold SimpleBucket.try_acquire at ht ⊢
      split at ht <;> simp_all
    · intro ht
      unfold SimpleBucket.try_acquire at ht ⊢
      split at ht <;> simp_all

theorem token_bucket_bounds_witness :
    (0 : Int) ≤ (SimpleBucket.new 5 1).tokens ∧
      (SimpleBucket.try_acquire (SimpleBucket.new 5 1)).1 = true :=
  ⟨by decide,
    (((token_bucket_bounds 5 1 0).2.1 (SimpleBucket.new 5 1)).2.1
        (by decide)).mpr (by decide)⟩

/-- C7: for every state of the counters, the rendered metrics text
consists of, in order, a `# HELP` line, a `# TYPE` line and a value line
for each of the eight metrics `gateway_requests_total`,
`gateway_requests_success`, `gateway_requests_error`,
`gateway_cache_hits`, `gateway_cache_misses`, `gateway_rate_limited`,
`gateway_circuit_breaker_open` (counters) and
`gateway_websocket_connections` (gauge). -/
theorem metrics_render_names (m : CustomMetrics) :
    (metricLines m)[0]? = some "# HELP gateway_requests_total Total requests"
    ∧ (metricLines m)[1]? = some "# TYPE gateway_requests_total counter"
    ∧ (metricLines m)[2]? = some ("gateway_requests_total " ++ toString m.requests_total)
    ∧ (metricLines m)[3]? = some "# HELP gateway_requests_success Successful requests"
    ∧ (metricLines m)[4]? = some "# TYPE gateway_requests_success counter"
    ∧ (metricLines m)[5]? = some ("gateway_requests_success " ++ toString m.requests_success)
    ∧ (metricLines m)[6]? = some "# HELP gateway_requests_error Error requests"
    ∧ (metricLines m)[7]? = some "# TYPE gateway_requests_error counter"
    ∧ (metricLines m)[8]? = some ("gateway_requests_error " ++ toString m.requests_error)
    ∧ (metricLines m)[9]? = some "# HELP gateway_cache_hits Cache hits"
    ∧ (metricLines m)[10]? = some "# TYPE gateway_cache_hits counter"
    ∧ (metricLines m)[11]? = some ("gateway_cache_hits " ++ toString m.cache_hits)
    ∧ (metricLines m)[12]? = some "# HELP gateway_cache_misses Cache misses"
    ∧ (metricLines m)[13]? = some "# TYPE gateway_cache_misses counter"
    ∧ (metricLines m)[14]? = some ("gateway_cache_misses " ++ toString m.cache_misses)
    ∧ (metricLines m)[15]? = some "# HELP gateway_rate_limited Rate limited requests"
    ∧ (metricLines m)[16]? = some "# TYPE gateway_rate_limited counter"
    ∧ (metricLines m)[17]? = some ("gateway_rate_limited " ++ toString m.rate_limited)
    ∧ (metricLines m)[18]? = some "# HELP gateway_circuit_breaker_open Circuit breaker open events"
    ∧ (metricLines m)[19]? = some "# TYPE gateway_circuit_breaker_open counter"
    ∧ (metricLines m)[20]? = some ("gateway_circuit_breaker_open " ++ toString m.circuit_breaker_open)
    ∧ (metricLines m)[21]? = some "# HELP gateway_websocket_connections Active WebSocket connections"
    ∧ (metricLines m)[22]? = some "# TYPE gateway_websocket_connections gauge"
    ∧ (metricLines m)[23]? = some ("gateway_websocket_connections " ++ toString m.websocket_connections)
    ∧ CustomMetrics.render m = String.intercalate "\n" (metricLines m) ++ "\n" :=
  ⟨rfl, rfl, rfl, rfl, rfl, rfl, rfl, rfl, rfl, rfl, rfl, rfl, rfl,
    rfl, rfl, rfl, rfl, rfl, rfl, rfl, rfl, rfl, rfl, rfl, rfl⟩

/-- C9: `utils::metric_handler::metrics_handler` panics (modelled `none`)
exactly when `prometheus_handle` is `None`, while
`utils::metrics::metrics_handler` is total and returns the custom-metrics
text (prefixed by the Prometheus text when a handle is present). -/
theorem metrics_handler_totality (s : MetricsAppState) (m : CustomMetrics) :
    (s.prometheus_handle = none →
      metricHandlerMetricsHandler s = none
      ∧ metricsMetricsHandler s m = CustomMetrics.render m)
    ∧ ((metricHandlerMetricsHandler s).isSome ↔ s.prometheus_handle.isSome)
    ∧ (∀ h, s.prometheus_handle = some h →
        metricHandlerMetricsHandler s = some h.rendered
        ∧ metricsMetricsHandler s m = (h.rendered ++ "\n") ++ CustomMetrics.render m) := by
  refine ⟨?_, ?_, ?_⟩
  · intro h
    simp [metricHandlerMetricsHandler, metricsMetricsHandler, h]
  · cases hs : s.prometheus_handle <;> simp [metricHandlerMetricsHandler, hs]
  · intro h hh
    simp [metricHandlerMetricsHandler, metricsMetricsHandler, hh]

theorem metrics_handler_totality_witness :
    (⟨none⟩ : MetricsAppState).prometheus_handle = none
    ∧ metricHandlerMetricsHandler ⟨none⟩ = none :=
  ⟨rfl, ((metrics_handler_totality ⟨none⟩ CustomMetrics.new).1 rfl).1⟩

/-- C10: the WebSocket-connections gauge is a wrapping unsigned 64-bit
counter: decrementing it at 0 wraps to `2 ^ 64 - 1 =
18446744073709551615`; and every metrics operation either leaves a counter
unchanged or moves it by exactly one step modulo `2 ^ 64` — there is no
reset operation. -/
theorem websocket_gauge_wraparound :
    (∀ m : CustomMetrics, m.websocket_connections = 0 →
      (applyOp .decWebsocketConnections m).websocket_connections = 18446744073709551615)
    ∧ (∀ m : CustomMetrics,
        (applyOp .decWebsocketConnections m).websocket_connections =
          (m.websocket_connections + (2 ^ 64 - 1)) % 2 ^ 64)
    ∧ (∀ (op : MetricsOp) (m : CustomMetrics),
        ((applyOp op m).requests_total = m.requests_total
          ∨ (applyOp op m).requests_total = wrapInc m.requests_total)
        ∧ ((applyOp op m).requests_success = m.requests_success
          ∨ (applyOp op m).requests_success = wrapInc m.requests_success)
        ∧ ((applyOp op m).requests_error = m.requests_error
          ∨ (applyOp op m).requests_error = wrapInc m.requests_error)
        ∧ ((applyOp op m).cache_hits = m.cache_hits
          ∨ (applyOp op m).cache_hits = wrapInc m.cache_hits)
        ∧ ((applyOp op m).cache_misses = m.cache_misses
          ∨ (applyOp op m).cache_misses = wrapInc m.cache_misses)
        ∧ ((applyOp op m).rate_limited = m.rate_limited
          ∨ (applyOp op m).rate_limited = wrapInc m.rate_limited)
        ∧ ((applyOp op m).circuit_breaker_open = m.circuit_breaker_open
          ∨ (applyOp op m).circuit_breaker_open = wrapInc m.circuit_breaker_open)
        ∧ ((applyOp op m).websocket_connections = m.websocket_connections
          ∨ (applyOp op m).websocket_connections = wrapInc m.websocket_connections
          ∨ (applyOp op m).websocket_connections = wrapDec m.websocket_connections)) := by
  refine ⟨?_, ?_, ?_⟩
  · intro m hm
    simp [applyOp, wrapDec, u64Mod, hm]
  · intro m
    simp [applyOp, wrapDec, u64Mod]
  · intro op m
    obtain ⟨a, b, c, d, e, f, g, h⟩ := m
    cases op with
    | incRequestsTotal =>
      exact ⟨Or.inr rfl, Or.inl rfl, Or.inl rfl, Or.inl rfl, Or.inl rfl,
        Or.inl rfl, Or.inl rfl, Or.inl rfl⟩
    | incRequestsSuccess =>
      exact ⟨Or.inl rfl, Or.inr rfl, Or.inl rfl, Or.inl rfl, Or.inl rfl,
        Or.inl rfl, Or.inl rfl, Or.inl rfl⟩
    | incRequestsError =>
      exact ⟨Or.inl rfl, Or.inl rfl, Or.inr rfl, Or.inl rfl, Or.inl rfl,
        Or.inl rfl, Or.inl rfl, Or.inl rfl⟩
    | incCacheHits =>
      exact ⟨Or.inl rfl, Or.inl rfl, Or.inl rfl, Or.inr rfl, Or.inl rfl,
        Or.inl rfl, Or.inl rfl, Or.inl rfl⟩
    | incCacheMisses =>
      exact ⟨Or.inl rfl, Or.inl rfl, Or.inl rfl, Or.inl rfl, Or.inr rfl,
        Or.inl rfl, Or.inl rfl, Or.inl rfl⟩
    | incRateLimited =>
      exact ⟨Or.inl rfl, Or.inl rfl, Or.inl rfl, Or.inl rfl, Or.inl rfl,
        Or.inr rfl, Or.inl rfl, Or.inl rfl⟩
    | incCircuitBreakerOpen =>
      exact ⟨Or.inl rfl, Or.inl rfl, Or.inl rfl, Or.inl rfl, Or.inl rfl,
        Or.inl rfl, Or.inr rfl, Or.inl rfl⟩
    | incWebsocketConnections =>
      exact ⟨Or.inl rfl, Or.inl rfl, Or.inl rfl, Or.inl rfl, Or.inl rfl,
        Or.inl rfl, Or.inl rfl, Or.inr (Or.inl rfl)⟩
    | decWebsocketConnections =>
      exact ⟨Or.inl rfl, Or.inl rfl, Or.inl rfl, Or.inl rfl, Or.inl rfl,
        Or.inl rfl, Or.inl rfl, Or.inr (Or.inr rfl)⟩

theorem websocket_gauge_wraparound_witness :
    CustomMetrics.new.websocket_connections = 0
    ∧ (applyOp .decWebsocketConnections CustomMetrics.new).websocket_connections =
        18446744073709551615 :=
  ⟨rfl, websocket_gauge_wraparound.1 CustomMetrics.new rfl⟩

theorem strData_append (a b : String) : (a ++ b).data = a.data ++ b.data := by
  cases a
  cases b
  rfl

theorem replaceAll_of_not_contains (pat rep : List Char) :
    ∀ s, listContains pat s = false → replaceAll pat rep s = s := by
  intro s
  induction s with
  | nil => intro _; simp [replaceAll]
  | cons c t ih =>
    intro h
    rcases Bool.or_eq_false_iff.mp (by simpa [listContains] using h) with ⟨hb, ht⟩
    simp [replaceAll, hb, ih ht]

theorem replaceAll_lead (pat rep r : List Char) (h : pat ≠ []) :
    replaceAll pat rep (pat ++ r) = rep ++ replaceAll pat rep r := by
  cases pat with
  | nil => exact absurd rfl h
  | cons a ps =>
    have hb : beginsWith (a :: ps) (a :: (ps ++ r)) = true := by
      simpa using beginsWith_append (a :: ps) r
    simp [replaceAll, hb, List.drop_left]

/-- C6: the WebSocket backend URL is the route's first configured
destination (`destinations[0]`, falling back to the legacy singular
`destination` field when `destinations` is empty), with the `http://`
scheme substituted by `ws://` and `https://` substituted by `wss://`; the
result never depends on the remaining destinations. -/
theorem ws_backend_url_first_destination :
    (∀ (c : GatewayConfig) (rawPath p legacy d : String) (rest : List String),
        find_route_for_path c ("/" ++ rawPath) = some ⟨p, d :: rest, legacy⟩ →
        ws_handler c rawPath = Except.ok (schemeSub d))
    ∧ (∀ (c : GatewayConfig) (rawPath p legacy : String),
        find_route_for_path c ("/" ++ rawPath) = some ⟨p, [], legacy⟩ →
        legacy ≠ "" →
        ws_handler c rawPath = Except.ok (schemeSub legacy))
    ∧ (∀ r : String,
        listContains "http://".data r.data = false →
        listContains "https://".data ("ws://" ++ r).data = false →
        schemeSub ("http://" ++ r) = "ws://" ++ r)
    ∧ (∀ r : String,
        listContains "http://".data ("https://" ++ r).data = false →
        listContains "https://".data r.data = false →
        schemeSub ("https://" ++ r) = "wss://" ++ r) := by
  refine ⟨?_, ?_, ?_, ?_⟩
  · intro c rawPath p legacy d rest h
    simp [ws_handler, h, wsDestinationUrl]
  · intro c rawPath p legacy h hlegacy
    simp [ws_handler, h, wsDestinationUrl, hlegacy]
  · intro r h1 h2
    show String.mk (replaceAll "https://".data "wss://".data
        (replaceAll "http://".data "ws://".data ("http://" ++ r).data)) = "ws://" ++ r
    rw [strData_append] at h2
    rw [strData_append, replaceAll_lead _ _ _ (by decide),
      replaceAll_of_not_contains _ _ _ h1,
      replaceAll_of_not_contains _ _ _ h2]
    obtain ⟨rd⟩ := r
    rfl
  · intro r h1 h2
    show String.mk (replaceAll "https://".data "wss://".data
        (replaceAll "http://".data "ws://".data ("https://" ++ r).data)) = "wss://" ++ r
    rw [replaceAll_of_not_contains _ _ _ h1, strData_append,
      replaceAll_lead _ _ _ (by decide),
      replaceAll_of_not_contains _ _ _ h2]
    obtain ⟨rd⟩ := r
    rfl

theorem ws_backend_url_first_destination_witness :
    find_route_for_path wsCfg ("/" ++ "ws/chat") = some wsRoute
    ∧ ws_handler wsCfg "ws/chat" = Except.ok (schemeSub "http://backend:9001")
    ∧ listContains "http://".data "backend:9001".data = false
    ∧ schemeSub ("http://" ++ "backend:9001") = "ws://" ++ "backend:9001" :=
  ⟨by decide,
    ws_backend_url_first_destination.1 wsCfg "ws/chat" "/ws" ""
      "http://backend:9001" [] (by decide),
    by decide,
    ws_backend_url_first_destination.2.2.1 "backend:9001" (by decide) (by decide)⟩

/-- C8: the startup entry point's default configuration filename
(`gateway.yaml`) differs from the CLI `--config` flag's default
(`gateway_config.yaml`). -/
theorem default_config_paths_differ :
    mainDefaultConfigFile = "gateway.yaml"
    ∧ cliDefaultConfigFile = "gateway_config.yaml"
    ∧ mainDefaultConfigFile ≠ cliDefaultConfigFile :=
  ⟨rfl, rfl, by decide⟩
